import Mathlib

/-!
Shallow embedding of the retrieval-augmented answer pipeline implemented in
`src/chatbot/Chatbot.py` (class `HueChatbot`).  External collaborators (the
DuckDuckGo search provider, HTTP page fetches, the Gemini generation service)
are modelled as explicit function parameters or result values; everything
else follows the Python source line by line.  Machine-level concerns
(threads, wall-clock timing, printing) are elided; the thread-pool collector
of `_process_urls_parallel` is modelled on the completion-ordered sequence of
per-URL extraction results it consumes.
-/

/-- Python `str.isspace`-style whitespace test for the characters stripped by
`str.strip()` (ASCII whitespace, which is all that the program's strings use). -/
def pyIsSpace (c : Char) : Bool :=
  c = ' ' || c = '\t' || c = '\n' || c = '\r' || c = '\x0b' || c = '\x0c'

/-- Python `str.strip()` on the underlying character list. -/
def pyStripList (l : List Char) : List Char :=
  ((l.dropWhile pyIsSpace).reverse.dropWhile pyIsSpace).reverse

/-- Python `str.strip()`. -/
def pyStrip (s : String) : String :=
  String.mk (pyStripList s.data)

/-- Python `str.lower()` (ASCII case folding, which covers the denylist). -/
def pyLower (s : String) : String :=
  String.mk (s.data.map Char.toLower)

/-- Does the haystack start with the needle? (character lists) -/
def listStartsWith : List Char → List Char → Bool
  | _, [] => true
  | [], _ :: _ => false
  | c :: cs, d :: ds => c = d && listStartsWith cs ds

/-- Does the needle occur as a contiguous run inside the haystack?
Models Python's `needle in haystack` on strings. -/
def listContainsSub : List Char → List Char → Bool
  | [], needle => needle.isEmpty
  | c :: cs, needle => listStartsWith (c :: cs) needle || listContainsSub cs needle

/-- Python `needle in haystack` for strings. -/
def pyInStr (needle haystack : String) : Bool :=
  listContainsSub haystack.data needle.data

/-- The fixed denylist of URL substrings from `_search_duckduckgo`
(Chatbot.py lines 79-86). -/
def badSubstrings : List String :=
  [".pdf", "facebook", "youtube", "instagram", "shopee", "tiki"]

/-- Python `any(bad in url.lower() for bad in [...])` (Chatbot.py lines 77-87). -/
def isBlocked (url : String) : Bool :=
  badSubstrings.any (fun bad => pyInStr bad (pyLower url))

/-- The collection loop of `_search_duckduckgo` (Chatbot.py lines 74-90):
walk provider records in order, append each URL that passes the denylist,
and break as soon as `len(urls) >= max_results` (checked after every record,
whether or not it was appended). -/
def collectUrls (maxResults : Nat) : List String → List String → List String
  | acc, [] => acc
  | acc, url :: rest =>
    let acc' := if isBlocked url then acc else acc ++ [url]
    if maxResults ≤ acc'.length then acc' else collectUrls maxResults acc' rest

/-- The mutable search cache `self.search_cache`, a dict from query strings to
URL lists, modelled as an association list (most recent binding first). -/
structure SearchState where
  cache : List (String × List String)
deriving DecidableEq

/-- One call to `_search_duckduckgo` (Chatbot.py lines 58-97).  The external
DDGS provider is `fetcher`: given the search query it returns `some records`
(the list of `r["href"]` values, in provider order) or `none` when the
provider raises.  Returns the URL list, the updated state, and whether the
external fetcher was invoked.  On a cache hit the cached value is returned
unchanged; on provider failure the `except` branch returns `[]` and the
cache is left untouched (nothing is stored). -/
def search_duckduckgo (st : SearchState) (query : String) (maxResults : Nat)
    (fetcher : String → Option (List String)) :
    List String × SearchState × Bool :=
  match st.cache.lookup query with
  | some urls => (urls, st, false)
  | none =>
    match fetcher (query ++ " Huế, Việt Nam") with
    | none => ([], st, true)
    | some records =>
      let urls := collectUrls maxResults [] records
      (urls, ⟨(query, urls) :: st.cache⟩, true)

/-- The truncation step of `_extract_article_fast` (Chatbot.py lines 125-126):
`if len(text) > 2000: text = text[:2000] + "..."`. -/
def truncate2000 (text : String) : String :=
  if 2000 < text.length then String.mk (text.data.take 2000) ++ "..." else text

/-- The text-selection step of `_extract_article_fast` (Chatbot.py lines
117-124): the first matching content selector's text (`some t`, or `none`
when no selector matched, leaving `text = ""`), replaced by the full page
text when empty or shorter than 100 characters. -/
def selectText (selectorText : Option String) (fullText : String) : String :=
  let text := selectorText.getD ""
  if text = "" || text.length < 100 then fullText else text

/-- One call to `_extract_article_fast` (Chatbot.py lines 99-130) on the
outcome of fetching and parsing one page.  `none` models the `except` branch
(any fetch/parse/timeout failure), which returns `""`; `some (sel, full)`
carries the first matching selector's text and the full page text produced
by BeautifulSoup. -/
def extract_article_fast : Option (Option String × String) → String
  | none => ""
  | some (selectorText, fullText) => truncate2000 (selectText selectorText fullText)

/-- The accumulation loop of `_process_urls_parallel` (Chatbot.py lines
141-153) over the completion-ordered sequence of per-URL extraction results:
keep each non-empty result whose stripped length exceeds 50, append it plus a
blank-line separator, and break once the combined buffer exceeds 5000
characters.  The boolean records whether the loop stopped via that break. -/
def aggLoop : List String → String → String × Bool
  | [], acc => (acc, false)
  | content :: rest, acc =>
    if content ≠ "" ∧ 50 < (pyStrip content).length then
      let acc' := acc ++ content ++ "\n\n"
      if 5000 < acc'.length then (acc', true) else aggLoop rest acc'
    else aggLoop rest acc

/-- One call to `_process_urls_parallel` (Chatbot.py lines 132-158), given the
per-URL extraction results in the order the thread pool delivered them. -/
def process_urls_parallel (contents : List String) : String :=
  (aggLoop contents "").1

/-- Python `s.replace("\n", " ")`. -/
def replaceNl (s : String) : String :=
  String.mk (s.data.map (fun c => if c = '\n' then ' ' else c))

/-- The prompt built by `_generate_answer` (Chatbot.py lines 162-178) from
the question, the cleaned reference context, and the cleaned history block
(included only when non-empty). -/
def mkPrompt (question context history : String) : String :=
  let clean_context := pyStrip (replaceNl context)
  let clean_history := if history ≠ "" then pyStrip (replaceNl history) else ""
  "\n            Dưới đây là các tài liệu tham khảo được thu thập từ các trang web uy tín.\n            Hãy đọc kỹ và chỉ sử dụng thông tin từ các tài liệu này để trả lời câu hỏi.\n\n            "
    ++ (if clean_history ≠ "" then "Lịch sử hội thoại trước đó: " ++ clean_history else "")
    ++ "\n\n            ---\n            TÀI LIỆU THAM KHẢO:\n            "
    ++ clean_context
    ++ "\n            ---\n\n            CÂU HỎI: " ++ question
    ++ "\n\n            TRẢ LỜI:"

/-- One call to `_generate_answer` (Chatbot.py lines 160-205).  The external
Gemini call on the assembled prompt is `genContent`, returning `.ok text` or
`.error e` when the provider raises with message `e`; the `except` branch
returns the descriptive string `f"Lỗi khi gọi AI Gemini: {e}"` instead of
raising. -/
def generate_answer (genContent : String → Except String String)
    (question context history : String) : String :=
  match genContent (mkPrompt question context history) with
  | .ok t => pyStrip t
  | .error e => "Lỗi khi gọi AI Gemini: " ++ e

/-- The three pipeline stages `_rag_process` sequences, as explicit function
parameters so that stage invocations are observable (the Python methods close
over external services). -/
structure RagEnv where
  search : String → List String
  aggregate : List String → String
  generate : String → String → String → String

/-- One call to `_rag_process` (Chatbot.py lines 207-236): search, then
short-circuit on an empty URL list with the sentinel
`"Không tìm thấy thông tin."`; extract, then short-circuit on whitespace-only
combined text with the sentinel `"Không trích xuất được thông tin."`;
otherwise generate.  The two booleans record whether the aggregator and the
generator were invoked. -/
def rag_process (env : RagEnv) (question history : String) :
    String × Bool × Bool :=
  let urls := env.search question
  if urls = [] then ("Không tìm thấy thông tin.", false, false)
  else
    let combined := env.aggregate urls
    if pyStrip combined = "" then ("Không trích xuất được thông tin.", true, false)
    else (env.generate question combined history, true, true)

/-- One `{"q": question, "a": answer}` entry of `self.history`. -/
structure HistoryTurn where
  q : String
  a : String
deriving DecidableEq

/-- The instance state read and written by `chat`: the stored history and the
configured `self.max_history` window size. -/
structure ChatState where
  history : List HistoryTurn
  max_history : Nat
deriving DecidableEq

/-- Python's tail slice `l[-n:]` for a non-negative `n`: the last `n`
elements, except that `-0` is `0`, so `n = 0` denotes the whole list. -/
def pySliceLast (l : List α) (n : Nat) : List α :=
  if n = 0 then l else l.drop (l.length - n)

/-- The rendering `f"Q: {h['q']} A: {h['a']}"` of one stored turn
(Chatbot.py line 249). -/
def renderTurn (h : HistoryTurn) : String :=
  "Q: " ++ h.q ++ " A: " ++ h.a

/-- The history-context construction in `chat` (Chatbot.py lines 245-250):
empty when no history is stored, otherwise the rendered turns of
`self.history[-self.max_history:]` joined by single spaces. -/
def buildHistoryContext (st : ChatState) : String :=
  if st.history = [] then ""
  else String.intercalate " " ((pySliceLast st.history st.max_history).map renderTurn)

/-- One call to `chat` (Chatbot.py lines 238-259): build the history context,
run the pipeline, append the new `{question, answer}` turn, and return the
answer together with the updated state. -/
def chat (env : RagEnv) (st : ChatState) (question : String) :
    String × ChatState :=
  let history_context := buildHistoryContext st
  let answer := (rag_process env question history_context).1
  (answer, ⟨st.history ++ [⟨question, answer⟩], st.max_history⟩)

/-- A string of `n` letters `a`, used as a generic non-whitespace text of a
prescribed length in concrete scenarios. -/
def aStr (n : Nat) : String :=
  String.mk (List.replicate n 'a')

lemma aStr_length (n : Nat) : (aStr n).length = n := by
  simp [aStr, String.length]

lemma dropWhile_replicate_a (n : Nat) :
    List.dropWhile pyIsSpace (List.replicate n 'a') = List.replicate n 'a' := by
  have ha : pyIsSpace 'a' = false := by decide
  cases n with
  | zero => rfl
  | succ m => simp [List.replicate_succ, List.dropWhile_cons, ha]

lemma pyStrip_aStr (n : Nat) : pyStrip (aStr n) = aStr n := by
  unfold pyStrip aStr pyStripList
  rw [dropWhile_replicate_a, List.reverse_replicate, dropWhile_replicate_a,
    List.reverse_replicate]

lemma aStr_eq_empty_iff (n : Nat) : aStr n = "" ↔ n = 0 := by
  constructor
  · intro h
    have := congrArg String.length h
    simpa [aStr_length] using this
  · rintro rfl
    rfl

/-- Size invariant of the accumulation loop: starting from a buffer of at
most 5000 characters, with every extraction result capped at 2003
characters, the loop never returns a buffer longer than
5000 + 2003 + 2 = 7005 characters (one capped document plus the blank-line
separator past the threshold). -/
lemma aggLoop_length_le (contents : List String) (acc : String)
    (hc : ∀ c ∈ contents, c.length ≤ 2003) (ha : acc.length ≤ 5000) :
    (aggLoop contents acc).1.length ≤ 7005 := by
  induction contents generalizing acc with
  | nil => simpa [aggLoop] using le_trans ha (by norm_num)
  | cons c rest ih =>
    have hclen : c.length ≤ 2003 := hc c (by simp)
    have hrest : ∀ x ∈ rest, x.length ≤ 2003 := fun x hx => hc x (by simp [hx])
    have hacc' : (acc ++ c ++ "\n\n").length ≤ 7005 := by
      simp only [String.length_append]
      have h2 : ("\n\n" : String).length = 2 := by decide
      omega
    simp only [aggLoop]
    split
    · split
      · simpa using hacc'
      · rename_i hnot
        exact ih _ hrest (by omega)
    · exact ih acc hrest ha

/-- Concrete run of the accumulation loop on four capped extraction results
(2003, 2003, 988, and 2003 characters): the buffer reaches exactly 5000
characters after three documents, the fourth append crosses the threshold,
and the loop breaks at 7005 characters. -/
lemma aggLoop_big :
    (aggLoop [aStr 2003, aStr 2003, aStr 988, aStr 2003] "").2 = true ∧
    (aggLoop [aStr 2003, aStr 2003, aStr 988, aStr 2003] "").1.length = 7005 := by
  have h2 : ("\n\n" : String).length = 2 := by decide
  have h0 : ("" : String).length = 0 := by decide
  simp [aggLoop, pyStrip_aStr, aStr_length, aStr_eq_empty_iff, String.length_append, h2, h0]

/-- C3 counterexample: a sequence of four per-URL extraction results, each
within the extractor's 2003-character cap, on which the accumulation loop
stops because the buffer exceeded 5000 characters and the final combined
buffer has 7005 characters — more than the claimed bound of 7003.  The
claim's bound omits the two-character blank-line separator `"\n\n"` that is
appended together with the final document. -/
theorem c3_threshold_stop_counterexample :
    (∀ c ∈ [aStr 2003, aStr 2003, aStr 988, aStr 2003], c.length ≤ 2003) ∧
    (aggLoop [aStr 2003, aStr 2003, aStr 988, aStr 2003] "").2 = true ∧
    ¬ ((process_urls_parallel [aStr 2003, aStr 2003, aStr 988, aStr 2003]).length ≤ 7003) := by
  refine ⟨by simp [aStr_length], aggLoop_big.1, ?_⟩
  have := aggLoop_big.2
  simp only [process_urls_parallel]
  omega

/-- C3 amended: when the accumulation loop of `_process_urls_parallel` stops
because the combined buffer exceeded the 5000-character threshold, and every
per-URL extraction result is within the extractor's 2003-character cap, the
final combined buffer has at most 5000 + (2000 + 3) + 2 = 7005 characters:
the claimed bound plus the two-character blank-line separator appended with
the final document. -/
theorem c3_threshold_stop_bound (contents : List String)
    (hc : ∀ c ∈ contents, c.length ≤ 2003)
    (_hstop : (aggLoop contents "").2 = true) :
    (process_urls_parallel contents).length ≤ 7005 := by
  have h0 : ("" : String).length ≤ 5000 := by decide
  simpa [process_urls_parallel] using aggLoop_length_le contents "" hc h0

/-- C3 witness: the amended bound holds on the concrete threshold-crossing
run, where the final buffer has exactly 7005 characters. -/
theorem c3_threshold_stop_witness :
    (∀ c ∈ [aStr 2003, aStr 2003, aStr 988, aStr 2003], c.length ≤ 2003) ∧
    (aggLoop [aStr 2003, aStr 2003, aStr 988, aStr 2003] "").2 = true ∧
    (process_urls_parallel [aStr 2003, aStr 2003, aStr 988, aStr 2003]).length ≤ 7005 := by
  refine ⟨by simp [aStr_length], aggLoop_big.1,
    c3_threshold_stop_bound _ (by simp [aStr_length]) aggLoop_big.1⟩

/-- C1 counterexample: with an empty cache and a fetcher that fails (the
DDGS call raises), the first `_search_duckduckgo` call returns `[]` without
storing anything in the cache — the `except` branch skips the store — so the
second call with the same query invokes the external fetcher again, contrary
to the claim's "for every fetcher (including one that fails on the first
call)". -/
theorem c1_failing_fetcher_counterexample :
    (search_duckduckgo ⟨[]⟩ "q" 2 (fun _ => none)).2.1.cache = [] ∧
    (search_duckduckgo (search_duckduckgo ⟨[]⟩ "q" 2 (fun _ => none)).2.1
      "q" 2 (fun _ => none)).2.2 = true :=
  ⟨rfl, rfl⟩

/-- C1 amended: for a query not in the cache whose fetch succeeds (the
fetcher returns a record list rather than raising), the first
`_search_duckduckgo` call stores its URL list in the cache, and the second
call with the same query returns that same list from the cache without
invoking the external fetcher and without changing the state.  When the
first fetch fails, nothing is stored and the second call fetches again. -/
theorem c1_cache_second_call (st : SearchState) (query : String)
    (maxResults : Nat) (fetcher : String → Option (List String))
    (records : List String)
    (hmiss : st.cache.lookup query = none)
    (hfetch : fetcher (query ++ " Huế, Việt Nam") = some records) :
    (search_duckduckgo st query maxResults fetcher).2.1.cache
      = (query, (search_duckduckgo st query maxResults fetcher).1) :: st.cache ∧
    (search_duckduckgo (search_duckduckgo st query maxResults fetcher).2.1
        query maxResults fetcher).1
      = (search_duckduckgo st query maxResults fetcher).1 ∧
    (search_duckduckgo (search_duckduckgo st query maxResults fetcher).2.1
        query maxResults fetcher).2.2 = false ∧
    (search_duckduckgo (search_duckduckgo st query maxResults fetcher).2.1
        query maxResults fetcher).2.1
      = (search_duckduckgo st query maxResults fetcher).2.1 := by
  have h1 : search_duckduckgo st query maxResults fetcher =
      (collectUrls maxResults [] records,
        ⟨(query, collectUrls maxResults [] records) :: st.cache⟩, true) := by
    simp [search_duckduckgo, hmiss, hfetch]
  rw [h1]
  simp [search_duckduckgo, List.lookup]

/-- C1 witness: a concrete cache-miss query whose fetch succeeds with one
record; the second call returns the stored list without fetching. -/
theorem c1_cache_second_call_witness :
    ((⟨[]⟩ : SearchState).cache.lookup "q" = none) ∧
    ((fun _ => some ["http://a.com"] : String → Option (List String))
        ("q" ++ " Huế, Việt Nam") = some ["http://a.com"]) ∧
    ((search_duckduckgo ⟨[]⟩ "q" 2 (fun _ => some ["http://a.com"])).2.1.cache
      = ("q", (search_duckduckgo ⟨[]⟩ "q" 2 (fun _ => some ["http://a.com"])).1)
          :: (⟨[]⟩ : SearchState).cache ∧
     (search_duckduckgo
        (search_duckduckgo ⟨[]⟩ "q" 2 (fun _ => some ["http://a.com"])).2.1
        "q" 2 (fun _ => some ["http://a.com"])).1
      = (search_duckduckgo ⟨[]⟩ "q" 2 (fun _ => some ["http://a.com"])).1 ∧
     (search_duckduckgo
        (search_duckduckgo ⟨[]⟩ "q" 2 (fun _ => some ["http://a.com"])).2.1
        "q" 2 (fun _ => some ["http://a.com"])).2.2 = false ∧
     (search_duckduckgo
        (search_duckduckgo ⟨[]⟩ "q" 2 (fun _ => some ["http://a.com"])).2.1
        "q" 2 (fun _ => some ["http://a.com"])).2.1
      = (search_duckduckgo ⟨[]⟩ "q" 2 (fun _ => some ["http://a.com"])).2.1) :=
  ⟨rfl, rfl, c1_cache_second_call ⟨[]⟩ "q" 2 _ ["http://a.com"] rfl rfl⟩

/-- C2: when the Search Client returns an empty URL list, `_rag_process`
returns the sentinel `"Không tìm thấy thông tin."` ("no information found")
and neither the Fetch Aggregator nor the Answer Generator is invoked. -/
theorem c2_empty_search_sentinel (env : RagEnv) (question history : String)
    (hs : env.search question = []) :
    rag_process env question history = ("Không tìm thấy thông tin.", false, false) := by
  simp [rag_process, hs]

/-- C2 witness: a concrete stage environment whose search stage returns no
URLs. -/
theorem c2_empty_search_sentinel_witness :
    ((RagEnv.mk (fun _ => []) (fun _ => "text") (fun _ _ _ => "answer")).search "hue" = []) ∧
    rag_process (RagEnv.mk (fun _ => []) (fun _ => "text") (fun _ _ _ => "answer")) "hue" ""
      = ("Không tìm thấy thông tin.", false, false) :=
  ⟨rfl, c2_empty_search_sentinel _ "hue" "" rfl⟩

/-- Invariant of the collection loop of `_search_duckduckgo`: starting from
an accumulator strictly below `maxResults` that contains no denylisted URL,
the loop returns at most `maxResults` URLs, none of them denylisted. -/
lemma collectUrls_invariant (maxResults : Nat) (records : List String)
    (acc : List String) (hlen : acc.length < maxResults)
    (hgood : ∀ u ∈ acc, isBlocked u = false) :
    (collectUrls maxResults acc records).length ≤ maxResults ∧
    ∀ u ∈ collectUrls maxResults acc records, isBlocked u = false := by
  induction records generalizing acc with
  | nil => exact ⟨le_of_lt hlen, hgood⟩
  | cons url rest ih =>
    simp only [collectUrls]
    by_cases hb : isBlocked url
    · rw [if_pos hb, if_neg (by omega)]
      exact ih acc hlen hgood
    · rw [if_neg hb]
      have hgood' : ∀ u ∈ acc ++ [url], isBlocked u = false := by
        intro u hu
        rcases List.mem_append.mp hu with h | h
        · exact hgood u h
        · simp only [List.mem_singleton] at h
          subst h
          exact Bool.not_eq_true _ ▸ (by simpa using hb)
      by_cases hstop : maxResults ≤ (acc ++ [url]).length
      · rw [if_pos hstop]
        refine ⟨?_, hgood'⟩
        simp only [List.length_append, List.length_singleton]
        omega
      · rw [if_neg hstop]
        refine ih (acc ++ [url]) ?_ hgood'
        simp only [List.length_append, List.length_singleton] at hstop ⊢
        omega

/-- C5 counterexample: with `max_results = 0` and a provider that yields one
usable record, `_search_duckduckgo` returns one URL — more than
`max_results`.  The loop's break test `len(urls) >= max_results` runs only
after a record has been appended, so `max_results = 0` still lets the first
surviving URL through. -/
theorem c5_zero_max_results_counterexample :
    (search_duckduckgo ⟨[]⟩ "q" 0 (fun _ => some ["http://a.com"])).1
      = ["http://a.com"] ∧
    ¬ ((search_duckduckgo ⟨[]⟩ "q" 0 (fun _ => some ["http://a.com"])).1.length ≤ 0) := by
  decide

/-- C5 amended: for `max_results ≥ 1` and a query not in the cache, the URL
list returned by `_search_duckduckgo` contains at most `max_results` URLs
and no URL whose lowercase form contains a denylisted substring, for every
provider result sequence (including a failing provider).  For
`max_results = 0` the list may contain one URL, still never a denylisted
one. -/
theorem c5_result_bound_and_denylist (st : SearchState) (query : String)
    (maxResults : Nat) (fetcher : String → Option (List String))
    (hmiss : st.cache.lookup query = none) (hm : 1 ≤ maxResults) :
    (search_duckduckgo st query maxResults fetcher).1.length ≤ maxResults ∧
    ∀ u ∈ (search_duckduckgo st query maxResults fetcher).1, isBlocked u = false := by
  simp only [search_duckduckgo, hmiss]
  cases hf : fetcher (query ++ " Huế, Việt Nam") with
  | none => simp
  | some records =>
    simpa using collectUrls_invariant maxResults records []
      (by simpa using hm) (by simp)

/-- C5 witness: a concrete provider sequence containing a denylisted `.pdf`
URL and three usable ones; with `max_results = 2` the client returns two
non-denylisted URLs. -/
theorem c5_result_bound_and_denylist_witness :
    ((⟨[]⟩ : SearchState).cache.lookup "hue" = none) ∧ 1 ≤ 2 ∧
    ((search_duckduckgo ⟨[]⟩ "hue" 2
        (fun _ => some ["http://x.pdf", "http://a.com", "http://b.com", "http://c.com"])).1.length ≤ 2 ∧
     ∀ u ∈ (search_duckduckgo ⟨[]⟩ "hue" 2
        (fun _ => some ["http://x.pdf", "http://a.com", "http://b.com", "http://c.com"])).1,
          isBlocked u = false) :=
  ⟨rfl, by omega, c5_result_bound_and_denylist ⟨[]⟩ "hue" 2 _ rfl (by omega)⟩

/-- C4: whenever the external generation call on the assembled prompt fails
with error message `e`, `_generate_answer` does not raise: it returns the
descriptive string `"Lỗi khi gọi AI Gemini: " ++ e`, which contains the text
of `e` (as a suffix of its character sequence). -/
theorem c4_generation_failure_contains_error
    (genContent : String → Except String String)
    (question context history e : String)
    (hfail : genContent (mkPrompt question context history) = Except.error e) :
    generate_answer genContent question context history
      = "Lỗi khi gọi AI Gemini: " ++ e ∧
    e.data <:+ (generate_answer genContent question context history).data := by
  have h1 : generate_answer genContent question context history
      = "Lỗi khi gọi AI Gemini: " ++ e := by
    simp [generate_answer, hfail]
  refine ⟨h1, ?_⟩
  rw [h1, String.data_append]
  exact List.suffix_append _ _

/-- C4 witness: a provider that always fails with the message `"boom"`; the
returned answer embeds it. -/
theorem c4_generation_failure_witness :
    ((fun _ => Except.error "boom" : String → Except String String)
        (mkPrompt "q" "ctx" "h") = Except.error "boom") ∧
    (generate_answer (fun _ => Except.error "boom") "q" "ctx" "h"
        = "Lỗi khi gọi AI Gemini: " ++ "boom" ∧
     ("boom" : String).data <:+
        (generate_answer (fun _ => Except.error "boom") "q" "ctx" "h").data) :=
  ⟨rfl, c4_generation_failure_contains_error _ "q" "ctx" "h" "boom" rfl⟩

/-- C6: the text returned by `_extract_article_fast` never exceeds
2000 + 3 = 2003 characters (2000 plus the marker `"..."`), and on a
successful fetch the marker is appended — the result is the first 2000
characters followed by `"..."` — exactly when the selected text was longer
than 2000 characters; otherwise the selected text is returned unchanged. -/
theorem c6_extract_truncation :
    (∀ inp : Option (Option String × String),
      (extract_article_fast inp).length ≤ 2003) ∧
    (∀ (sel : Option String) (full : String),
      2000 < (selectText sel full).length →
        extract_article_fast (some (sel, full))
          = String.mk ((selectText sel full).data.take 2000) ++ "...") ∧
    (∀ (sel : Option String) (full : String),
      (selectText sel full).length ≤ 2000 →
        extract_article_fast (some (sel, full)) = selectText sel full) := by
  have hmark : ("..." : String).length = 3 := by decide
  refine ⟨?_, ?_, ?_⟩
  · intro inp
    match inp with
    | none => decide
    | some (sel, full) =>
      simp only [extract_article_fast, truncate2000]
      split
      · rename_i hlong
        rw [String.length_append, hmark]
        have h1 : (String.mk ((selectText sel full).data.take 2000)).length
            = ((selectText sel full).data.take 2000).length := rfl
        have h2 : ((selectText sel full).data.take 2000).length ≤ 2000 :=
          List.length_take_le 2000 (selectText sel full).data
        omega
      · rename_i hshort
        omega
  · intro sel full hlong
    simp only [extract_article_fast, truncate2000, if_pos hlong]
  · intro sel full hshort
    simp only [extract_article_fast, truncate2000]
    rw [if_neg (by omega)]

/-- C6 witness: a page whose full text (used because no selector matched)
has 2500 characters; the extractor returns the first 2000 characters plus
the marker, within the 2003-character bound. -/
theorem c6_extract_truncation_witness :
    (extract_article_fast (some (none, aStr 2500))).length ≤ 2003 ∧
    2000 < (selectText none (aStr 2500)).length ∧
    extract_article_fast (some (none, aStr 2500))
      = String.mk ((selectText none (aStr 2500)).data.take 2000) ++ "..." := by
  have hsel : 2000 < (selectText none (aStr 2500)).length := by
    simp [selectText, aStr_length]
  exact ⟨c6_extract_truncation.1 _, hsel, c6_extract_truncation.2.1 none (aStr 2500) hsel⟩

/-- C7 counterexample: with window size `n = 0` and one stored turn, the
slice `history[-0:]` read by `chat` is the whole history, so it contains one
turn — more than `n`.  Python's `-0` start index denotes the start of the
list, not its end. -/
theorem c7_zero_window_counterexample :
    ¬ ((pySliceLast [(⟨"q1", "a1"⟩ : HistoryTurn)] 0).length ≤ 0) := by
  decide

/-- C7 amended: for every stored history and window size `n ≥ 1`, the slice
`history[-n:]` read when building context contains at most `n` turns and is
a suffix of the stored history — the most recent turns, in chronological
order and unchanged from how they were stored.  For `n = 0` the slice is the
entire history. -/
theorem c7_history_window (h : List HistoryTurn) (n : Nat) (hn : 1 ≤ n) :
    (pySliceLast h n).length ≤ n ∧ pySliceLast h n <:+ h := by
  have hn0 : n ≠ 0 := by omega
  constructor
  · simp only [pySliceLast, if_neg hn0, List.length_drop]
    omega
  · simp only [pySliceLast, if_neg hn0]
    exact List.drop_suffix _ _

/-- C7 witness: three stored turns and a window of two; the slice is the
last two turns. -/
theorem c7_history_window_witness :
    1 ≤ 2 ∧
    ((pySliceLast [(⟨"q1", "a1"⟩ : HistoryTurn), ⟨"q2", "a2"⟩, ⟨"q3", "a3"⟩] 2).length ≤ 2 ∧
     pySliceLast [(⟨"q1", "a1"⟩ : HistoryTurn), ⟨"q2", "a2"⟩, ⟨"q3", "a3"⟩] 2
       <:+ [⟨"q1", "a1"⟩, ⟨"q2", "a2"⟩, ⟨"q3", "a3"⟩]) :=
  ⟨by omega, c7_history_window [⟨"q1", "a1"⟩, ⟨"q2", "a2"⟩, ⟨"q3", "a3"⟩] 2 (by omega)⟩

/-- C8: when the search stage yields a non-empty URL list but the Fetch
Aggregator's combined text is empty or whitespace-only (its `strip()` is
empty), `_rag_process` returns the sentinel
`"Không trích xuất được thông tin."` ("could not extract information") and
the Answer Generator is never invoked. -/
theorem c8_whitespace_extract_sentinel (env : RagEnv) (question history : String)
    (hne : env.search question ≠ [])
    (hws : pyStrip (env.aggregate (env.search question)) = "") :
    rag_process env question history
      = ("Không trích xuất được thông tin.", true, false) := by
  simp [rag_process, hne, hws]

/-- C8 witness: one URL is found but every fetch contributes only
whitespace, so the combined text strips to empty. -/
theorem c8_whitespace_extract_sentinel_witness :
    ((RagEnv.mk (fun _ => ["http://a.com"]) (fun _ => "  \n ") (fun _ _ _ => "answer")).search "hue" ≠ []) ∧
    (pyStrip ((RagEnv.mk (fun _ => ["http://a.com"]) (fun _ => "  \n ") (fun _ _ _ => "answer")).aggregate
        ((RagEnv.mk (fun _ => ["http://a.com"]) (fun _ => "  \n ") (fun _ _ _ => "answer")).search "hue")) = "") ∧
    rag_process (RagEnv.mk (fun _ => ["http://a.com"]) (fun _ => "  \n ") (fun _ _ _ => "answer")) "hue" ""
      = ("Không trích xuất được thông tin.", true, false) :=
  ⟨by decide, by decide,
    c8_whitespace_extract_sentinel _ "hue" "" (by decide) (by decide)⟩

/-- C9: every call to `chat` appends exactly one `{question, answer}` turn
to the stored history, whose answer field is exactly the string `chat`
returns — for every stage environment, so in particular also when the
pipeline short-circuits with a sentinel message. -/
theorem c9_chat_appends_one_turn (env : RagEnv) (st : ChatState) (question : String) :
    (chat env st question).2.history
      = st.history ++ [⟨question, (chat env st question).1⟩] ∧
    (chat env st question).2.history.length = st.history.length + 1 ∧
    (chat env st question).2.max_history = st.max_history := by
  refine ⟨rfl, ?_, rfl⟩
  simp [chat]

/-- C10: when `max_history` is configured to 0 and the stored history is
non-empty, the tail slice `history[-0:]` taken by `chat` is the entire
stored history, so the history context renders every stored turn rather
than none. -/
theorem c10_zero_max_history_full_slice (st : ChatState)
    (h0 : st.max_history = 0) (hne : st.history ≠ []) :
    pySliceLast st.history st.max_history = st.history ∧
    buildHistoryContext st
      = String.intercalate " " (st.history.map renderTurn) := by
  rw [h0]
  exact ⟨rfl, by simp [buildHistoryContext, hne, pySliceLast, h0]⟩

/-- C10 witness: one stored turn and `max_history = 0`; the context renders
that turn. -/
theorem c10_zero_max_history_witness :
    ((ChatState.mk [⟨"q1", "a1"⟩] 0).max_history = 0) ∧
    ((ChatState.mk [⟨"q1", "a1"⟩] 0).history ≠ []) ∧
    (pySliceLast (ChatState.mk [⟨"q1", "a1"⟩] 0).history
        (ChatState.mk [⟨"q1", "a1"⟩] 0).max_history
      = (ChatState.mk [⟨"q1", "a1"⟩] 0).history ∧
     buildHistoryContext (ChatState.mk [⟨"q1", "a1"⟩] 0)
      = String.intercalate " " ((ChatState.mk [⟨"q1", "a1"⟩] 0).history.map renderTurn)) :=
  ⟨rfl, by decide, c10_zero_max_history_full_slice _ rfl (by decide)⟩
